import Mathlib

/-!
Verification of the LocalGram ingestion-and-rendering pipeline.

This file shallowly embeds the storage layer (`src/storage_manager.py`) and
the ingestion pipeline (`src/archiver.py`) of the LocalGram archiver and
proves the spec's testable properties against that embedding.

Modelling conventions:
* sqlite rows become Lean structures; the two tables are Lean lists with an
  explicit autoincrement counter (sqlite AUTOINCREMENT starts at 1);
* the filesystem is the list of paths that currently exist on disk;
* the external feed client is modelled by the data it delivers (a message
  carries its media kind; a download either succeeds, placing the file at
  its deterministic destination path, or fails, returning no path);
* renders are recorded in a ghost log: one entry per channel-page render
  holding the channel key and the exact message list handed to the
  renderer, plus a counter of index-page renders and a counter of
  `save_message` calls (to reason about which paths write to Storage).
-/

set_option maxRecDepth 40000

namespace LocalGram

/-- A row of the `channels` table (`storage_manager.py`, `_init_db`). -/
structure ChannelRec where
  id : Nat
  telegram_id : Nat
  title : String
  username : String
  folder_path : String
  avatar_path : Option String
deriving Repr, DecidableEq

/-- A row of the `messages` table (`storage_manager.py`, `_init_db`). -/
structure MessageRec where
  id : Nat
  channel_id : Nat
  telegram_id : Nat
  date : String
  message_text : Option String
  media_path : Option String
  grouped_id : Option Nat
deriving Repr, DecidableEq

/-- The sqlite database: both tables plus the autoincrement counters
(`sqlite_sequence`); sqlite AUTOINCREMENT hands out 1, 2, ... -/
structure DB where
  channels : List ChannelRec
  messages : List MessageRec
  nextChannelId : Nat
  nextMessageId : Nat
deriving Repr, DecidableEq

def emptyDB : DB := ⟨[], [], 1, 1⟩

/-- `StorageManager.get_message`: SELECT * FROM messages WHERE channel_id = ?
AND telegram_id = ? (first matching row). -/
def get_message (db : DB) (cid tid : Nat) : Option MessageRec :=
  db.messages.find? (fun m => m.channel_id == cid && m.telegram_id == tid)

/-- `StorageManager.save_message`: duplicate check on (channel_id,
telegram_id), then INSERT; returns True when inserted, False on duplicate. -/
def save_message (db : DB) (cid tid : Nat) (date : String) (text : Option String)
    (mediaPath : Option String) (gid : Option Nat) : Bool × DB :=
  if (get_message db cid tid).isSome then (false, db)
  else
    (true, { db with
      messages := db.messages ++ [⟨db.nextMessageId, cid, tid, date, text, mediaPath, gid⟩],
      nextMessageId := db.nextMessageId + 1 })

/-- `StorageManager.get_or_create_channel`: SELECT id by telegram_id; if a
row exists return its id, otherwise INSERT and return the fresh id. -/
def get_or_create_channel (db : DB) (tid : Nat) (title username folder : String)
    (avatar : Option String) : Nat × DB :=
  match db.channels.find? (fun c => c.telegram_id == tid) with
  | some c => (c.id, db)
  | none =>
    (db.nextChannelId, { db with
      channels := db.channels ++ [⟨db.nextChannelId, tid, title, username, folder, avatar⟩],
      nextChannelId := db.nextChannelId + 1 })

/-- `StorageManager.get_channel_by_id`. -/
def get_channel_by_id (db : DB) (i : Nat) : Option ChannelRec :=
  db.channels.find? (fun c => c.id == i)

/-- `StorageManager.get_all_channels`. -/
def get_all_channels (db : DB) : List ChannelRec :=
  db.channels

/-- The ORDER BY relation of `get_messages`: telegram_id ascending. -/
def msgLe (a b : MessageRec) : Prop := a.telegram_id ≤ b.telegram_id

instance : DecidableRel msgLe := fun a b =>
  inferInstanceAs (Decidable (a.telegram_id ≤ b.telegram_id))

instance : IsTotal MessageRec msgLe := ⟨fun a b => Nat.le_total a.telegram_id b.telegram_id⟩

instance : IsTrans MessageRec msgLe := ⟨fun _ _ _ h1 h2 => Nat.le_trans h1 h2⟩

/-- `StorageManager.get_messages`: SELECT * FROM messages WHERE channel_id = ?
ORDER BY telegram_id ASC LIMIT ? OFFSET ? (insertionSort models the stable
ORDER BY; OFFSET skips, LIMIT truncates). -/
def get_messages (db : DB) (cid limit offset : Nat) : List MessageRec :=
  (((db.messages.filter (fun m => m.channel_id == cid)).insertionSort msgLe).drop offset).take limit

/-- The kind of an attached media item, as classified by Telethon's message
attributes (`RawMessage`'s media descriptor in the spec). -/
inductive MediaKind where
  | photo
  | video
  | voice
  | sticker
  | document
deriving Repr, DecidableEq

/-- Telethon semantics of `msg.photo`: set only for photo media. -/
def hasPhoto : MediaKind → Bool
  | .photo => true
  | _ => false

/-- Telethon semantics of `msg.video`: set for video media (a video is a
Document carrying a video attribute). -/
def hasVideo : MediaKind → Bool
  | .video => true
  | _ => false

/-- Telethon semantics of `msg.document`: set for every document-backed
media, which includes videos, voice notes, stickers and generic files —
everything except photos. -/
def hasDocument : MediaKind → Bool
  | .photo => false
  | _ => true

/-- The media-filter chain of `Archiver._process_message` (lines 156-168):
`should_download` starts False; then the photo / video / document branches
are tried in order, each requiring its category in the configured
`media_types` list and the corresponding Telethon attribute on the
message. -/
def should_download (allowed : List String) (media : Option MediaKind) : Bool :=
  match media with
  | none => false
  | some k =>
    if allowed.contains "photo" && hasPhoto k then true
    else if allowed.contains "video" && hasVideo k then true
    else if allowed.contains "document" && hasDocument k then true
    else false

/-- A Telethon message as consumed by the pipeline: external id, its date
rendered both as `strftime %Y%m%d` (for the media filename) and isoformat
(for the DB), text, media descriptor and album id. -/
structure Msg where
  id : Nat
  dateStr : String
  dateIso : String
  text : Option String
  media : Option MediaKind
  grouped_id : Option Nat
deriving Repr, DecidableEq

/-- A resolved channel entity (`chat_entity`): external telegram id, title,
username, and the result of the avatar download at resolution time. -/
structure Chat where
  tid : Nat
  title : String
  username : String
  avatar : Option String
deriving Repr, DecidableEq

/-- The world the archiver acts on: the database, the set of on-disk paths,
and ghost observation logs — `renders` records each channel-page render
(channel key and the message list handed to `HtmlBuilder.render_channel`),
`indexRenders` counts `render_index` calls, `saves` counts `save_message`
calls. -/
structure World where
  db : DB
  fs : List String
  renders : List (Nat × List MessageRec)
  indexRenders : Nat
  saves : Nat
deriving Repr, DecidableEq

/-- `Archiver._render_sync` fetches `get_messages(db_id, limit=5000)`. -/
def RENDER_LIMIT : Nat := 5000

/-- `Archiver._update_channel_html` / `_render_sync`: re-read the channel's
messages from Storage (capped at `RENDER_LIMIT`) and hand them to the
renderer; the ghost log records exactly what the renderer received. -/
def renderChannel (w : World) (dbId : Nat) : World :=
  { w with renders := w.renders ++ [(dbId, get_messages w.db dbId RENDER_LIMIT 0)] }

/-- The deterministic media destination of `Archiver._download_media`:
`downloads/{username}/{date_str}_{message.id}` (the extension Telethon
appends is a function of the media itself, so it is folded into the
deterministic name). -/
def mediaFilePath (msg : Msg) (username : String) : String :=
  "downloads/" ++ username ++ "/" ++ msg.dateStr ++ "_" ++ toString msg.id

/-- `Archiver._download_media` with the network outcome made explicit:
on success the file appears at the deterministic path and that (relative)
path is returned; on failure nothing is written and None is returned. -/
def download_media (dOk : Bool) (w : World) (msg : Msg) (username : String) :
    Option String × World :=
  if dOk then
    let p := mediaFilePath msg username
    (some p, { w with fs := if w.fs.contains p then w.fs else p :: w.fs })
  else (none, w)

/-- The early-return classification of `Archiver._process_message`
(lines 139-151): an existing record with a recorded media path still on
disk, or with no media path at all, is fully processed and skipped. -/
def classify_skip (w1 : World) (existing : Option MessageRec) : Bool :=
  match existing with
  | some em =>
    match em.media_path with
    | some mp => w1.fs.contains mp
    | none => true
  | none => false

/-- `Archiver._process_message` (single successful attempt; every
collaborator the body calls catches its own exceptions and returns a value,
so the surrounding 3-attempt retry loop never re-runs the body):
resolve the channel, look up the message, skip / repair / fresh-insert,
download media when the allow-list says so, save only in the fresh case,
and render when `saved and render`. -/
def process_message (allowed : List String) (dOk : Bool) (w : World) (msg : Msg)
    (chat : Chat) (render : Bool) : Bool × World :=
  let g := get_or_create_channel w.db chat.tid chat.title chat.username "" none
  let dbId := g.1
  let w1 : World := { w with db := g.2 }
  let existing := get_message g.2 dbId msg.id
  if classify_skip w1 existing then (false, w1)
  else
    let dl := if should_download allowed msg.media then download_media dOk w1 msg chat.username
              else (none, w1)
    match existing with
    | none =>
      let sv := save_message dl.2.db dbId msg.id msg.dateIso msg.text dl.1 msg.grouped_id
      let w3 : World := { dl.2 with db := sv.2, saves := dl.2.saves + 1 }
      if sv.1 && render then (sv.1, renderChannel w3 dbId) else (sv.1, w3)
    | some _ =>
      if render then (true, renderChannel dl.2 dbId) else (true, dl.2)

/-- The internal key the pipeline resolves for `chat` against world `w`
(the first component of the `get_or_create_channel` call made by
`_process_message`). -/
def resolvedKey (w : World) (chat : Chat) : Nat :=
  (get_or_create_channel w.db chat.tid chat.title chat.username "" none).1

/-- The internal key already recorded for an external channel id, if any. -/
def channelKey (db : DB) (tid : Nat) : Option Nat :=
  (db.channels.find? (fun c => c.telegram_id == tid)).map (fun c => c.id)

/-- One iteration of the loop in `Archiver._resolve_channels` (successful
case): register the channel, render the index immediately when the channel
list is non-empty (lines 84-89), then render the channel page once
(line 98; the backfill between the two is disabled in the source). -/
def resolve_one (downloadPath : String) (w : World) (c : Chat) : World :=
  let g := get_or_create_channel w.db c.tid c.title c.username
            (downloadPath ++ "/" ++ c.username) c.avatar
  let w1 : World := { w with db := g.2 }
  let w2 : World :=
    if get_all_channels w1.db ≠ [] then { w1 with indexRenders := w1.indexRenders + 1 } else w1
  renderChannel w2 g.1

/-- `Archiver._resolve_channels`: resolve every configured channel in turn,
then render the index once more after the loop when the channel list is
non-empty (lines 103-109). -/
def resolve_channels (downloadPath : String) (w : World) (cs : List Chat) : World :=
  let w1 := cs.foldl (resolve_one downloadPath) w
  if get_all_channels w1.db ≠ [] then { w1 with indexRenders := w1.indexRenders + 1 } else w1

/-- Modelled from the spec: the historical backfill pass is present in the
source only as disabled code (`archiver.py` lines 91-98, commented out
with a note that it was turned off for pure real-time monitoring). Per the
spec's backfill contract and that disabled code, each message of the window
is processed through the ordinary `_process_message` with `render=False`,
and the channel page is rendered exactly once after the whole window
(line 98 of the source). -/
def backfill (allowed : List String) (dOk : Bool) (w : World) (chat : Chat)
    (dbId : Nat) (history : List Msg) : World :=
  let w1 := history.foldl (fun acc m => (process_message allowed dOk acc m chat false).2) w
  renderChannel w1 dbId

/-- `StorageManager.clear_all_data` with its two failure points explicit:
`dbFault` is a sqlite error inside step 1 (nothing committed, return
False); `rmFault` is a failure while removing the `downloads` / `channels`
directories in step 2 — by then the deletions are already committed, and
False is returned over a wiped database. -/
def clear_all_data (dbFault rmFault : Bool) (w : World) : Bool × World :=
  if dbFault then (false, w)
  else
    let w1 : World := { w with db := emptyDB }
    if rmFault then (false, w1)
    else
      let keep : String → Bool := fun p => !(p.startsWith "downloads" || p.startsWith "channels")
      (true, { w1 with fs := w1.fs.filter keep })

/-- `StorageManager.save_message` with the transient-fault outcome explicit:
the `except sqlite3.Error` handler returns False with the database
untouched — the same value a duplicate produces. -/
def save_messageF (fault : Bool) (db : DB) (cid tid : Nat) (date : String)
    (text : Option String) (mediaPath : Option String) (gid : Option Nat) : Bool × DB :=
  if fault then (false, db) else save_message db cid tid date text mediaPath gid

/-- `StorageManager.get_or_create_channel` with the transient-fault outcome
explicit: the handler returns None. -/
def get_or_create_channelF (fault : Bool) (db : DB) (tid : Nat)
    (title username folder : String) (avatar : Option String) : Option Nat × DB :=
  if fault then (none, db)
  else
    let g := get_or_create_channel db tid title username folder avatar
    (some g.1, g.2)

/-- `StorageManager.get_messages` with the transient-fault outcome explicit:
the handler returns an empty list. -/
def get_messagesF (fault : Bool) (db : DB) (cid limit offset : Nat) : List MessageRec :=
  if fault then [] else get_messages db cid limit offset

/-- `StorageManager.get_message` with the transient-fault outcome explicit:
the handler returns None. -/
def get_messageF (fault : Bool) (db : DB) (cid tid : Nat) : Option MessageRec :=
  if fault then none else get_message db cid tid

/-! ### Helper lemmas about the storage layer -/

theorem goc_key_eq (db : DB) (tid : Nat) (t u f : String) (a : Option String) :
    ∃ c, ((get_or_create_channel db tid t u f a).2).channels.find?
          (fun c => c.telegram_id == tid) = some c ∧
        c.id = (get_or_create_channel db tid t u f a).1 ∧ c.telegram_id = tid := by
  unfold get_or_create_channel
  cases h : db.channels.find? (fun c => c.telegram_id == tid) with
  | some c =>
    refine ⟨c, h, rfl, ?_⟩
    have hp := List.find?_some h
    simpa using hp
  | none =>
    refine ⟨⟨db.nextChannelId, tid, t, u, f, a⟩, ?_, rfl, rfl⟩
    simp [List.find?_append, h]

theorem goc_found {db : DB} {tid : Nat} {c : ChannelRec}
    (h : db.channels.find? (fun c => c.telegram_id == tid) = some c)
    (t u f : String) (a : Option String) :
    get_or_create_channel db tid t u f a = (c.id, db) := by
  simp [get_or_create_channel, h]

theorem goc_messages (db : DB) (tid : Nat) (t u f : String) (a : Option String) :
    ((get_or_create_channel db tid t u f a).2).messages = db.messages := by
  unfold get_or_create_channel
  cases h : db.channels.find? (fun c => c.telegram_id == tid) <;> rfl

theorem goc_nextMessageId (db : DB) (tid : Nat) (t u f : String) (a : Option String) :
    ((get_or_create_channel db tid t u f a).2).nextMessageId = db.nextMessageId := by
  unfold get_or_create_channel
  cases h : db.channels.find? (fun c => c.telegram_id == tid) <;> rfl

theorem goc_channels_ne_nil (db : DB) (tid : Nat) (t u f : String) (a : Option String) :
    ((get_or_create_channel db tid t u f a).2).channels ≠ [] := by
  unfold get_or_create_channel
  cases h : db.channels.find? (fun c => c.telegram_id == tid) with
  | some c => exact List.ne_nil_of_mem (List.mem_of_find?_eq_some h)
  | none => simp

theorem goc_again (db : DB) (tid : Nat) (t u f : String) (a : Option String)
    (t' u' f' : String) (a' : Option String) :
    get_or_create_channel ((get_or_create_channel db tid t u f a).2) tid t' u' f' a'
      = ((get_or_create_channel db tid t u f a).1, (get_or_create_channel db tid t u f a).2) := by
  obtain ⟨c, hf, hid, _⟩ := goc_key_eq db tid t u f a
  rw [goc_found hf, hid]

theorem channelKey_goc {db : DB} {tid k : Nat} (h : channelKey db tid = some k)
    (t u f : String) (a : Option String) :
    get_or_create_channel db tid t u f a = (k, db) := by
  unfold channelKey at h
  cases hf : db.channels.find? (fun c => c.telegram_id == tid) with
  | none => simp [hf] at h
  | some c =>
    simp only [hf, Option.map_some] at h
    obtain rfl : c.id = k := by simpa using h
    exact goc_found hf t u f a

/-! ### C4 : channel upsert determinism -/

/-- Claim C4: resolving the same external channel id twice returns the same
internal key both times, changes nothing on the second call (so the first
call's title/handle/path/avatar values are never overwritten:
first-write-wins, get-or-create), and — when the database held at most one
record for that external id — leaves exactly one such record. -/
theorem get_or_create_channel_idempotent (db : DB) (tid : Nat)
    (t u f : String) (a : Option String) (t' u' f' : String) (a' : Option String)
    (h : (db.channels.filter (fun c => c.telegram_id == tid)).length ≤ 1) :
    (get_or_create_channel ((get_or_create_channel db tid t u f a).2) tid t' u' f' a').1
        = (get_or_create_channel db tid t u f a).1 ∧
    (get_or_create_channel ((get_or_create_channel db tid t u f a).2) tid t' u' f' a').2
        = (get_or_create_channel db tid t u f a).2 ∧
    (((get_or_create_channel db tid t u f a).2).channels.filter
        (fun c => c.telegram_id == tid)).length = 1 := by
  refine ⟨by rw [goc_again], by rw [goc_again], ?_⟩
  unfold get_or_create_channel
  cases hf : db.channels.find? (fun c => c.telegram_id == tid) with
  | some c =>
    have hpc := List.find?_some hf
    have hc : c ∈ db.channels.filter (fun c => c.telegram_id == tid) :=
      List.mem_filter.mpr ⟨List.mem_of_find?_eq_some hf, by simpa using hpc⟩
    have h1 : 1 ≤ (db.channels.filter (fun c => c.telegram_id == tid)).length :=
      List.length_pos.mpr (List.ne_nil_of_mem hc)
    exact Nat.le_antisymm h h1
  | none =>
    have hnil : db.channels.filter (fun c => c.telegram_id == tid) = [] :=
      List.filter_eq_nil_iff.mpr (by simpa using List.find?_eq_none.mp hf)
    simp [List.filter_append, hnil]

/-- Witness for C4 at a concrete input. -/
theorem get_or_create_channel_idempotent_witness :
    ((emptyDB.channels.filter (fun c => c.telegram_id == 5)).length ≤ 1) ∧
    ((get_or_create_channel ((get_or_create_channel emptyDB 5 "t" "u" "f" none).2)
        5 "t2" "u2" "f2" (some "av")).1
      = (get_or_create_channel emptyDB 5 "t" "u" "f" none).1 ∧
    (get_or_create_channel ((get_or_create_channel emptyDB 5 "t" "u" "f" none).2)
        5 "t2" "u2" "f2" (some "av")).2
      = (get_or_create_channel emptyDB 5 "t" "u" "f" none).2 ∧
    (((get_or_create_channel emptyDB 5 "t" "u" "f" none).2).channels.filter
        (fun c => c.telegram_id == 5)).length = 1) :=
  ⟨by decide, get_or_create_channel_idempotent emptyDB 5 "t" "u" "f" none
      "t2" "u2" "f2" (some "av") (by decide)⟩

/-! ### Branch lemmas for `process_message` -/

/-- Number of persisted records for one (channel key, external message id). -/
def msgCount (db : DB) (cid tid : Nat) : Nat :=
  (db.messages.filter (fun m => m.channel_id == cid && m.telegram_id == tid)).length

/-- The database `process_message` runs against after its channel
resolution step. -/
def resolvedDB (w : World) (chat : Chat) : DB :=
  (get_or_create_channel w.db chat.tid chat.title chat.username "" none).2

theorem process_message_skip (allowed : List String) (dOk : Bool) (w : World) (msg : Msg)
    (chat : Chat) (render : Bool)
    (hskip : classify_skip { w with db := resolvedDB w chat }
      (get_message (resolvedDB w chat) (resolvedKey w chat) msg.id) = true) :
    process_message allowed dOk w msg chat render = (false, { w with db := resolvedDB w chat }) := by
  unfold process_message
  simp only [resolvedDB, resolvedKey] at hskip ⊢
  rw [hskip]
  rfl

theorem process_message_fresh (allowed : List String) (dOk : Bool) (w : World) (msg : Msg)
    (chat : Chat) (render : Bool)
    (habs : get_message (resolvedDB w chat) (resolvedKey w chat) msg.id = none) :
    process_message allowed dOk w msg chat render =
      (let dl := if should_download allowed msg.media
                 then download_media dOk { w with db := resolvedDB w chat } msg chat.username
                 else (none, { w with db := resolvedDB w chat })
       let sv := save_message dl.2.db (resolvedKey w chat) msg.id msg.dateIso msg.text dl.1
                   msg.grouped_id
       let w3 : World := { dl.2 with db := sv.2, saves := dl.2.saves + 1 }
       if sv.1 && render then (sv.1, renderChannel w3 (resolvedKey w chat))
       else (sv.1, w3)) := by
  unfold process_message
  simp only [resolvedDB, resolvedKey] at habs ⊢
  rw [habs]
  rfl

theorem process_message_repair (allowed : List String) (dOk : Bool) (w : World) (msg : Msg)
    (chat : Chat) (render : Bool) (em : MessageRec)
    (hex : get_message (resolvedDB w chat) (resolvedKey w chat) msg.id = some em)
    (hnoskip : classify_skip { w with db := resolvedDB w chat } (some em) = false) :
    process_message allowed dOk w msg chat render =
      (let dl := if should_download allowed msg.media
                 then download_media dOk { w with db := resolvedDB w chat } msg chat.username
                 else (none, { w with db := resolvedDB w chat })
       if render then (true, renderChannel dl.2 (resolvedKey w chat)) else (true, dl.2)) := by
  unfold process_message
  simp only [resolvedDB, resolvedKey] at hex hnoskip ⊢
  rw [hex, hnoskip]
  rfl

/-! ### Component lemmas -/

theorem download_media_db (dOk : Bool) (w : World) (msg : Msg) (u : String) :
    (download_media dOk w msg u).2.db = w.db := by
  cases dOk <;> simp [download_media]

theorem download_media_renders (dOk : Bool) (w : World) (msg : Msg) (u : String) :
    (download_media dOk w msg u).2.renders = w.renders := by
  cases dOk <;> simp [download_media]

theorem download_media_saves (dOk : Bool) (w : World) (msg : Msg) (u : String) :
    (download_media dOk w msg u).2.saves = w.saves := by
  cases dOk <;> simp [download_media]

theorem download_media_contains (w : World) (msg : Msg) (u : String) :
    (download_media true w msg u).2.fs.contains (mediaFilePath msg u) = true := by
  show (if w.fs.contains (mediaFilePath msg u) then w.fs
        else mediaFilePath msg u :: w.fs).contains (mediaFilePath msg u) = true
  by_cases h : w.fs.contains (mediaFilePath msg u) = true
  · rw [if_pos h]
    exact h
  · rw [if_neg h]
    simp [List.contains_cons]

theorem download_media_fst (dOk : Bool) (w : World) (msg : Msg) (u : String) :
    (download_media dOk w msg u).1
      = if dOk then some (mediaFilePath msg u) else none := by
  cases dOk <;> simp [download_media]

theorem renderChannel_db (w : World) (i : Nat) : (renderChannel w i).db = w.db := rfl

theorem renderChannel_fs (w : World) (i : Nat) : (renderChannel w i).fs = w.fs := rfl

theorem renderChannel_saves (w : World) (i : Nat) : (renderChannel w i).saves = w.saves := rfl

theorem save_message_of_none {db : DB} {cid tid : Nat} {d : String} {t mp : Option String}
    {g : Option Nat} (h : get_message db cid tid = none) :
    save_message db cid tid d t mp g =
      (true, { db with
        messages := db.messages ++ [⟨db.nextMessageId, cid, tid, d, t, mp, g⟩],
        nextMessageId := db.nextMessageId + 1 }) := by
  simp [save_message, h]

theorem save_message_channels (db : DB) (cid tid : Nat) (d : String) (t mp : Option String)
    (g : Option Nat) : (save_message db cid tid d t mp g).2.channels = db.channels := by
  unfold save_message
  split <;> rfl

theorem channelKey_resolvedDB (w : World) (chat : Chat) :
    channelKey (resolvedDB w chat) chat.tid = some (resolvedKey w chat) := by
  obtain ⟨c, hfc, hcid, -⟩ := goc_key_eq w.db chat.tid chat.title chat.username "" none
  unfold channelKey resolvedDB
  rw [hfc]
  simp [hcid, resolvedKey]

theorem resolved_stable {w' : World} {chat : Chat} {k : Nat}
    (h : channelKey w'.db chat.tid = some k) :
    resolvedDB w' chat = w'.db ∧ resolvedKey w' chat = k := by
  unfold resolvedDB resolvedKey
  rw [channelKey_goc h]
  exact ⟨rfl, rfl⟩

theorem get_message_append_right {db : DB} {cid tid : Nat}
    (h : get_message db cid tid = none) (m : MessageRec) :
    (db.messages ++ [m]).find? (fun r => r.channel_id == cid && r.telegram_id == tid)
      = [m].find? (fun r => r.channel_id == cid && r.telegram_id == tid) := by
  rw [List.find?_append]
  unfold get_message at h
  rw [h]
  rfl

/-- The record `_process_message` inserts for a fresh message whose media
download produced `mp`. -/
def freshRec (w : World) (chat : Chat) (msg : Msg) (mp : Option String) : MessageRec :=
  ⟨(resolvedDB w chat).nextMessageId, resolvedKey w chat, msg.id, msg.dateIso, msg.text, mp,
    msg.grouped_id⟩

/-- The database after a fresh insert. -/
def freshDB (w : World) (chat : Chat) (msg : Msg) (mp : Option String) : DB :=
  { resolvedDB w chat with
    messages := (resolvedDB w chat).messages ++ [freshRec w chat msg mp],
    nextMessageId := (resolvedDB w chat).nextMessageId + 1 }

theorem process_message_fresh_explicit (allowed : List String) (dOk : Bool) (w : World)
    (msg : Msg) (chat : Chat) (render : Bool)
    (habs : get_message (resolvedDB w chat) (resolvedKey w chat) msg.id = none) :
    ∃ (mp : Option String) (fs1 : List String),
      process_message allowed dOk w msg chat render =
        (true,
          if render
          then renderChannel ⟨freshDB w chat msg mp, fs1, w.renders, w.indexRenders, w.saves + 1⟩
            (resolvedKey w chat)
          else ⟨freshDB w chat msg mp, fs1, w.renders, w.indexRenders, w.saves + 1⟩) ∧
      (∀ p, mp = some p → fs1.contains p = true) := by
  rw [process_message_fresh allowed dOk w msg chat render habs]
  cases hsd : should_download allowed msg.media with
  | false =>
    refine ⟨none, w.fs, ?_, by intro p hp; cases hp⟩
    simp only [Bool.false_eq_true, if_false]
    rw [save_message_of_none habs]
    simp only [freshDB, freshRec]
    cases render <;> rfl
  | true =>
    cases dOk with
    | false =>
      refine ⟨none, w.fs, ?_, by intro p hp; cases hp⟩
      simp only [if_true, download_media, Bool.false_eq_true, if_false]
      rw [save_message_of_none habs]
      simp only [freshDB, freshRec]
      cases render <;> rfl
    | true =>
      refine ⟨some (mediaFilePath msg chat.username),
        (download_media true { w with db := resolvedDB w chat } msg chat.username).2.fs, ?_, ?_⟩
      · have hidx : ∀ w' : World, (download_media true w' msg chat.username).2.indexRenders
            = w'.indexRenders := by
          intro w'
          simp [download_media]
        simp only [if_true, download_media_fst, download_media_db]
        rw [save_message_of_none habs]
        simp only [freshDB, freshRec, download_media_renders, download_media_saves, hidx]
        cases render <;> rfl
      · intro p hp
        obtain rfl : mediaFilePath msg chat.username = p := by injection hp
        exact download_media_contains _ msg chat.username

theorem channelKey_freshDB (w : World) (chat : Chat) (msg : Msg) (mp : Option String) :
    channelKey (freshDB w chat msg mp) chat.tid = some (resolvedKey w chat) := by
  have h : (freshDB w chat msg mp).channels = (resolvedDB w chat).channels := rfl
  unfold channelKey
  rw [h]
  exact channelKey_resolvedDB w chat

theorem get_message_freshDB (w : World) (chat : Chat) (msg : Msg) (mp : Option String)
    (habs : get_message (resolvedDB w chat) (resolvedKey w chat) msg.id = none) :
    get_message (freshDB w chat msg mp) (resolvedKey w chat) msg.id
      = some (freshRec w chat msg mp) := by
  show ((resolvedDB w chat).messages ++ [freshRec w chat msg mp]).find?
      (fun r => r.channel_id == resolvedKey w chat && r.telegram_id == msg.id)
    = some (freshRec w chat msg mp)
  rw [get_message_append_right habs]
  simp [freshRec, List.find?]

theorem msgCount_freshDB (w : World) (chat : Chat) (msg : Msg) (mp : Option String)
    (habs : get_message (resolvedDB w chat) (resolvedKey w chat) msg.id = none) :
    msgCount (freshDB w chat msg mp) (resolvedKey w chat) msg.id = 1 := by
  unfold msgCount
  show (((resolvedDB w chat).messages ++ [freshRec w chat msg mp]).filter
      (fun m => m.channel_id == resolvedKey w chat && m.telegram_id == msg.id)).length = 1
  rw [List.filter_append]
  have hnil : (resolvedDB w chat).messages.filter
      (fun m => m.channel_id == resolvedKey w chat && m.telegram_id == msg.id) = [] :=
    List.filter_eq_nil_iff.mpr (by simpa using List.find?_eq_none.mp habs)
  rw [hnil]
  simp [freshRec]

/-! ### C1 : idempotent insert -/

/-- Claim C1: processing the same (fresh) message twice yields exactly one
persisted record for its (channel key, external message id); the second
call returns False, performs no Storage write, and in fact leaves the
whole world (database, disk, render log, save counter) untouched. -/
theorem process_message_idempotent (allowed : List String) (dOk : Bool) (w : World)
    (msg : Msg) (chat : Chat)
    (habs : get_message (resolvedDB w chat) (resolvedKey w chat) msg.id = none) :
    (process_message allowed dOk ((process_message allowed dOk w msg chat true).2)
        msg chat true).1 = false ∧
    (process_message allowed dOk ((process_message allowed dOk w msg chat true).2)
        msg chat true).2 = (process_message allowed dOk w msg chat true).2 ∧
    msgCount ((process_message allowed dOk w msg chat true).2).db (resolvedKey w chat)
      msg.id = 1 := by
  obtain ⟨mp, fs1, h1, hfs⟩ := process_message_fresh_explicit allowed dOk w msg chat true habs
  rw [h1]
  simp only [if_true]
  have hck : channelKey (renderChannel ⟨freshDB w chat msg mp, fs1, w.renders, w.indexRenders,
      w.saves + 1⟩ (resolvedKey w chat)).db chat.tid = some (resolvedKey w chat) := by
    rw [renderChannel_db]
    exact channelKey_freshDB w chat msg mp
  obtain ⟨hrdb, hrk⟩ := resolved_stable hck
  have hex2 : get_message (resolvedDB (renderChannel ⟨freshDB w chat msg mp, fs1, w.renders,
        w.indexRenders, w.saves + 1⟩ (resolvedKey w chat)) chat)
      (resolvedKey (renderChannel ⟨freshDB w chat msg mp, fs1, w.renders, w.indexRenders,
        w.saves + 1⟩ (resolvedKey w chat)) chat) msg.id = some (freshRec w chat msg mp) := by
    rw [hrdb, hrk, renderChannel_db]
    exact get_message_freshDB w chat msg mp habs
  have hskip : classify_skip { renderChannel ⟨freshDB w chat msg mp, fs1, w.renders,
        w.indexRenders, w.saves + 1⟩ (resolvedKey w chat) with
      db := resolvedDB (renderChannel ⟨freshDB w chat msg mp, fs1, w.renders, w.indexRenders,
        w.saves + 1⟩ (resolvedKey w chat)) chat }
      (get_message (resolvedDB (renderChannel ⟨freshDB w chat msg mp, fs1, w.renders,
          w.indexRenders, w.saves + 1⟩ (resolvedKey w chat)) chat)
        (resolvedKey (renderChannel ⟨freshDB w chat msg mp, fs1, w.renders, w.indexRenders,
          w.saves + 1⟩ (resolvedKey w chat)) chat) msg.id) = true := by
    rw [hex2]
    cases hmp : mp with
    | none =>
      simp [classify_skip, freshRec, hmp]
    | some p =>
      have hc := hfs p hmp
      simp [classify_skip, freshRec, hmp, renderChannel]
      simpa using hc
  rw [process_message_skip allowed dOk _ msg chat true hskip]
  refine ⟨rfl, ?_, ?_⟩
  · show _ = renderChannel ⟨freshDB w chat msg mp, fs1, w.renders, w.indexRenders,
      w.saves + 1⟩ (resolvedKey w chat)
    rw [hrdb]
  · rw [renderChannel_db]
    exact msgCount_freshDB w chat msg mp habs

/-! ### Concrete example data for witnesses -/

def wEx : World := ⟨emptyDB, [], [], 0, 0⟩

def chatEx : Chat := ⟨5, "t", "u", none⟩

def msgEx : Msg := ⟨10, "20240101", "2024-01-01T00:00:00", some "hi", some .photo, none⟩

/-- Witness for C1 at a concrete input. -/
theorem process_message_idempotent_witness :
    get_message (resolvedDB wEx chatEx) (resolvedKey wEx chatEx) msgEx.id = none ∧
    ((process_message ["photo"] true ((process_message ["photo"] true wEx msgEx chatEx true).2)
        msgEx chatEx true).1 = false ∧
     (process_message ["photo"] true ((process_message ["photo"] true wEx msgEx chatEx true).2)
        msgEx chatEx true).2 = (process_message ["photo"] true wEx msgEx chatEx true).2 ∧
     msgCount ((process_message ["photo"] true wEx msgEx chatEx true).2).db
        (resolvedKey wEx chatEx) msgEx.id = 1) :=
  ⟨rfl, process_message_idempotent ["photo"] true wEx msgEx chatEx rfl⟩

/-! ### C5 : media self-healing -/

/-- Claim C5: for a persisted message whose recorded media file (at its
deterministic path, derived from the message's date and external id) is
missing on disk, reprocessing re-downloads the file to that same path,
creates no second database record (the database is untouched) and performs
no Storage write (`save_message` is never called: the save counter is
unchanged). -/
theorem media_self_healing (allowed : List String) (w : World) (msg : Msg) (chat : Chat)
    (render : Bool) (dbId : Nat) (em : MessageRec)
    (hkey : channelKey w.db chat.tid = some dbId)
    (hex : get_message w.db dbId msg.id = some em)
    (hmp : em.media_path = some (mediaFilePath msg chat.username))
    (hmiss : w.fs.contains (mediaFilePath msg chat.username) = false)
    (hdl : should_download allowed msg.media = true) :
    (process_message allowed true w msg chat render).1 = true ∧
    (process_message allowed true w msg chat render).2.db = w.db ∧
    (process_message allowed true w msg chat render).2.fs.contains
      (mediaFilePath msg chat.username) = true ∧
    (process_message allowed true w msg chat render).2.saves = w.saves := by
  obtain ⟨hrdb, hrk⟩ := resolved_stable hkey
  have hex' : get_message (resolvedDB w chat) (resolvedKey w chat) msg.id = some em := by
    rw [hrdb, hrk]
    exact hex
  have hnoskip : classify_skip { w with db := resolvedDB w chat } (some em) = false := by
    simp only [classify_skip, hmp]
    exact hmiss
  rw [process_message_repair allowed true w msg chat render em hex' hnoskip]
  simp only [hdl, if_true]
  cases render with
  | true =>
    rw [if_pos rfl]
    refine ⟨rfl, ?_, ?_, ?_⟩
    · rw [renderChannel_db, download_media_db]
      exact hrdb
    · rw [renderChannel_fs]
      exact download_media_contains _ msg chat.username
    · rw [renderChannel_saves, download_media_saves]
  | false =>
    rw [if_neg Bool.false_ne_true]
    refine ⟨rfl, ?_, ?_, ?_⟩
    · rw [download_media_db]
      exact hrdb
    · exact download_media_contains _ msg chat.username
    · rw [download_media_saves]

def recEx : MessageRec :=
  ⟨1, 1, 10, "2024-01-01T00:00:00", some "hi", some "downloads/u/20240101_10", none⟩

def wEx5 : World := ⟨⟨[⟨1, 5, "t", "u", "f", none⟩], [recEx], 2, 2⟩, [], [], 0, 0⟩

/-- Witness for C5 at a concrete input. -/
theorem media_self_healing_witness :
    channelKey wEx5.db chatEx.tid = some 1 ∧
    get_message wEx5.db 1 msgEx.id = some recEx ∧
    recEx.media_path = some (mediaFilePath msgEx chatEx.username) ∧
    wEx5.fs.contains (mediaFilePath msgEx chatEx.username) = false ∧
    should_download ["photo"] msgEx.media = true ∧
    ((process_message ["photo"] true wEx5 msgEx chatEx true).1 = true ∧
     (process_message ["photo"] true wEx5 msgEx chatEx true).2.db = wEx5.db ∧
     (process_message ["photo"] true wEx5 msgEx chatEx true).2.fs.contains
       (mediaFilePath msgEx chatEx.username) = true ∧
     (process_message ["photo"] true wEx5 msgEx chatEx true).2.saves = wEx5.saves) :=
  ⟨rfl, rfl, rfl, rfl, rfl,
    media_self_healing ["photo"] wEx5 msgEx chatEx true 1 recEx rfl rfl rfl rfl rfl⟩

/-! ### C7 : render trigger -/

/-- Counterexample to claim C7 as stated: at this concrete input the
message already exists (no fresh insert), its recorded media path is
missing on disk, the allow-list is empty and the download is failing — so
the repair restores nothing (the filesystem is unchanged and the media is
still absent) and no Storage write happens — yet a render is issued
(the render log grows from 0 to 1 entries). -/
theorem repair_without_restore_renders :
    (process_message [] false wEx5 msgEx chatEx true).2.renders.length = 1 ∧
    wEx5.renders.length = 0 ∧
    get_message wEx5.db 1 msgEx.id = some recEx ∧
    recEx.media_path = some "downloads/u/20240101_10" ∧
    wEx5.fs.contains "downloads/u/20240101_10" = false ∧
    (process_message [] false wEx5 msgEx chatEx true).2.fs = wEx5.fs ∧
    (process_message [] false wEx5 msgEx chatEx true).2.saves = wEx5.saves := by
  refine ⟨rfl, rfl, rfl, rfl, rfl, rfl, rfl⟩

/-- Claim C7 (amended): a channel render is issued exactly when the
processing result is True and the caller requested rendering; and the
result is True exactly when the message was absent (fresh insert, which
then always succeeds) or the existing record carries a media path that is
missing on disk — the repair path triggers the render regardless of
whether the re-download actually restored the media. -/
theorem render_trigger_characterization (allowed : List String) (dOk : Bool) (w : World)
    (msg : Msg) (chat : Chat) (render : Bool) :
    ((process_message allowed dOk w msg chat render).2.renders.length
      = w.renders.length
        + (if (process_message allowed dOk w msg chat render).1 && render then 1 else 0)) ∧
    ((process_message allowed dOk w msg chat render).1 = true ↔
      (get_message (resolvedDB w chat) (resolvedKey w chat) msg.id = none ∨
       ∃ em, get_message (resolvedDB w chat) (resolvedKey w chat) msg.id = some em ∧
         ∃ p, em.media_path = some p ∧ w.fs.contains p = false)) := by
  cases hm : get_message (resolvedDB w chat) (resolvedKey w chat) msg.id with
  | none =>
    obtain ⟨mp, fs1, h1, -⟩ := process_message_fresh_explicit allowed dOk w msg chat render hm
    rw [h1]
    constructor
    · cases render with
      | true =>
        rw [if_pos rfl]
        simp [renderChannel]
      | false =>
        rw [if_neg Bool.false_ne_true]
        simp
    · simp
  | some em =>
    cases hskip : classify_skip { w with db := resolvedDB w chat } (some em) with
    | true =>
      have hskip' : classify_skip { w with db := resolvedDB w chat }
          (get_message (resolvedDB w chat) (resolvedKey w chat) msg.id) = true := by
        rw [hm]
        exact hskip
      rw [process_message_skip allowed dOk w msg chat render hskip']
      refine ⟨by simp, ?_⟩
      simp only [Bool.false_eq_true, false_iff]
      rintro (hnone | ⟨em', hem', p, hp, hc⟩)
      · cases hnone
      · obtain rfl : em = em' := by injection hem'
        simp only [classify_skip, hp] at hskip
        rw [hc] at hskip
        cases hskip
    | false =>
      rw [process_message_repair allowed dOk w msg chat render em hm hskip]
      have hmedia : ∃ p, em.media_path = some p ∧ w.fs.contains p = false := by
        simp only [classify_skip] at hskip
        cases hmp : em.media_path with
        | none =>
          rw [hmp] at hskip
          cases hskip
        | some p =>
          rw [hmp] at hskip
          exact ⟨p, rfl, by simpa using hskip⟩
      cases render with
      | true =>
        rw [if_pos rfl]
        refine ⟨?_, iff_of_true rfl (Or.inr ⟨em, rfl, hmedia⟩)⟩
        cases hsd : should_download allowed msg.media with
        | true => simp [renderChannel, hsd, download_media_renders]
        | false => simp [renderChannel, hsd]
      | false =>
        rw [if_neg Bool.false_ne_true]
        refine ⟨?_, iff_of_true rfl (Or.inr ⟨em, rfl, hmedia⟩)⟩
        cases hsd : should_download allowed msg.media with
        | true => simp [hsd, download_media_renders]
        | false => simp [hsd]

/-! ### C2 : backfill suppression -/

theorem get_message_mono {db db' : DB} {cid tid : Nat}
    (h : ∃ tail, db'.messages = db.messages ++ tail)
    (hs : (get_message db cid tid).isSome = true) :
    (get_message db' cid tid).isSome = true := by
  obtain ⟨tail, ht⟩ := h
  unfold get_message at hs ⊢
  rw [ht, List.find?_append]
  cases hfind : db.messages.find? (fun m => m.channel_id == cid && m.telegram_id == tid) with
  | none =>
    rw [hfind] at hs
    cases hs
  | some m => simp [hfind]

theorem process_message_backfill_step (allowed : List String) (dOk : Bool) (w : World)
    (msg : Msg) (chat : Chat) (dbId : Nat)
    (hkey : channelKey w.db chat.tid = some dbId) :
    (process_message allowed dOk w msg chat false).2.renders = w.renders ∧
    channelKey (process_message allowed dOk w msg chat false).2.db chat.tid = some dbId ∧
    (∃ tail, (process_message allowed dOk w msg chat false).2.db.messages
      = w.db.messages ++ tail) ∧
    (get_message (process_message allowed dOk w msg chat false).2.db dbId msg.id).isSome
      = true := by
  obtain ⟨hrdb, hrk⟩ := resolved_stable hkey
  cases hm : get_message (resolvedDB w chat) (resolvedKey w chat) msg.id with
  | none =>
    obtain ⟨mp, fs1, h1, -⟩ := process_message_fresh_explicit allowed dOk w msg chat false hm
    rw [h1]
    rw [if_neg Bool.false_ne_true]
    refine ⟨rfl, ?_, ?_, ?_⟩
    · show channelKey (freshDB w chat msg mp) chat.tid = some dbId
      rw [channelKey_freshDB, hrk]
    · refine ⟨[freshRec w chat msg mp], ?_⟩
      show (resolvedDB w chat).messages ++ [freshRec w chat msg mp] = w.db.messages ++ _
      rw [hrdb]
    · show (get_message (freshDB w chat msg mp) dbId msg.id).isSome = true
      rw [← hrk, get_message_freshDB w chat msg mp hm]
      rfl
  | some em =>
    cases hskip : classify_skip { w with db := resolvedDB w chat } (some em) with
    | true =>
      have hskip' : classify_skip { w with db := resolvedDB w chat }
          (get_message (resolvedDB w chat) (resolvedKey w chat) msg.id) = true := by
        rw [hm]
        exact hskip
      rw [process_message_skip allowed dOk w msg chat false hskip']
      rw [hrdb]
      refine ⟨rfl, hkey, ⟨[], by simp⟩, ?_⟩
      rw [hrdb, hrk] at hm
      show (get_message w.db dbId msg.id).isSome = true
      rw [hm]
      rfl
    | false =>
      rw [process_message_repair allowed dOk w msg chat false em hm hskip]
      rw [if_neg Bool.false_ne_true]
      cases hsd : should_download allowed msg.media with
      | false =>
        rw [if_neg Bool.false_ne_true]
        rw [hrdb]
        refine ⟨rfl, hkey, ⟨[], by simp⟩, ?_⟩
        rw [hrdb, hrk] at hm
        show (get_message w.db dbId msg.id).isSome = true
        rw [hm]
        rfl
      | true =>
        rw [if_pos rfl]
        have hdb : (download_media dOk { w with db := resolvedDB w chat } msg
            chat.username).2.db = w.db := by
          rw [download_media_db]
          exact hrdb
        rw [hrdb, hrk] at hm
        refine ⟨?_, ?_, ?_, ?_⟩
        · rw [download_media_renders]
        · rw [hdb]
          exact hkey
        · exact ⟨[], by rw [hdb]; simp⟩
        · rw [hdb, hm]
          rfl

theorem backfill_fold_inv (allowed : List String) (dOk : Bool) (chat : Chat) (dbId : Nat) :
    ∀ (history : List Msg) (w : World), channelKey w.db chat.tid = some dbId →
      (history.foldl (fun acc m => (process_message allowed dOk acc m chat false).2)
          w).renders = w.renders ∧
      channelKey (history.foldl (fun acc m => (process_message allowed dOk acc m chat false).2)
          w).db chat.tid = some dbId ∧
      (∃ tail, (history.foldl (fun acc m => (process_message allowed dOk acc m chat false).2)
          w).db.messages = w.db.messages ++ tail) ∧
      (∀ m ∈ history, (get_message (history.foldl
          (fun acc m => (process_message allowed dOk acc m chat false).2) w).db dbId
          m.id).isSome = true) := by
  intro history
  induction history with
  | nil =>
    intro w hkey
    exact ⟨rfl, hkey, ⟨[], by simp⟩, by intro m hmem; cases hmem⟩
  | cons m ms ih =>
    intro w hkey
    obtain ⟨hr, hk, hext, hpers⟩ :=
      process_message_backfill_step allowed dOk w m chat dbId hkey
    obtain ⟨hr2, hk2, hext2, hpers2⟩ := ih (process_message allowed dOk w m chat false).2 hk
    rw [List.foldl_cons]
    refine ⟨by rw [hr2, hr], hk2, ?_, ?_⟩
    · obtain ⟨t1, h1⟩ := hext
      obtain ⟨t2, h2⟩ := hext2
      exact ⟨t1 ++ t2, by rw [h2, h1, List.append_assoc]⟩
    · intro x hx
      rcases List.mem_cons.mp hx with rfl | hxs
      · exact get_message_mono hext2 hpers
      · exact hpers2 x hxs

/-- Claim C2: running a backfill batch over K messages issues exactly one
render call for the channel — the render-log entry appended at the very
end, whose snapshot is read from the final database — and every message of
the window is persisted in that final database; per-message processing
with rendering suppressed never renders. -/
theorem backfill_single_render (allowed : List String) (dOk : Bool) (w : World)
    (chat : Chat) (dbId : Nat) (history : List Msg)
    (hkey : channelKey w.db chat.tid = some dbId) :
    (backfill allowed dOk w chat dbId history).renders
      = w.renders ++ [(dbId, get_messages (backfill allowed dOk w chat dbId history).db
          dbId RENDER_LIMIT 0)] ∧
    ∀ m ∈ history, (get_message (backfill allowed dOk w chat dbId history).db dbId
        m.id).isSome = true := by
  obtain ⟨hr, -, -, hpers⟩ := backfill_fold_inv allowed dOk chat dbId history w hkey
  constructor
  · show (history.foldl (fun acc m => (process_message allowed dOk acc m chat false).2)
        w).renders ++ _ = _
    rw [hr]
    rfl
  · intro m hm
    exact hpers m hm

def wEx2 : World := ⟨⟨[⟨1, 5, "t", "u", "f", none⟩], [], 2, 1⟩, [], [], 0, 0⟩

def msgEx2 : Msg := ⟨11, "20240102", "2024-01-02T00:00:00", some "b", none, none⟩

/-- Witness for C2 at a concrete input: a two-message backfill batch. -/
theorem backfill_single_render_witness :
    channelKey wEx2.db chatEx.tid = some 1 ∧
    ((backfill ["photo"] true wEx2 chatEx 1 [msgEx, msgEx2]).renders
      = wEx2.renders ++ [(1, get_messages (backfill ["photo"] true wEx2 chatEx 1
          [msgEx, msgEx2]).db 1 RENDER_LIMIT 0)] ∧
    ∀ m ∈ [msgEx, msgEx2], (get_message (backfill ["photo"] true wEx2 chatEx 1
        [msgEx, msgEx2]).db 1 m.id).isSome = true) :=
  ⟨rfl, backfill_single_render ["photo"] true wEx2 chatEx 1 [msgEx, msgEx2] rfl⟩

/-! ### C3 : index rendering during channel resolution -/

theorem resolve_one_indexRenders (p : String) (w : World) (c : Chat) :
    (resolve_one p w c).indexRenders = w.indexRenders + 1 := by
  unfold resolve_one
  simp only [get_all_channels]
  rw [if_pos (goc_channels_ne_nil w.db c.tid c.title c.username (p ++ "/" ++ c.username)
    c.avatar)]
  rfl

theorem resolve_one_channels_ne_nil (p : String) (w : World) (c : Chat) :
    (resolve_one p w c).db.channels ≠ [] := by
  unfold resolve_one
  simp only [get_all_channels]
  have hne := goc_channels_ne_nil w.db c.tid c.title c.username (p ++ "/" ++ c.username) c.avatar
  rw [if_pos hne]
  exact hne

theorem resolve_fold_idx (p : String) : ∀ (cs : List Chat) (w : World),
    (cs.foldl (resolve_one p) w).indexRenders = w.indexRenders + cs.length := by
  intro cs
  induction cs with
  | nil => intro w; rfl
  | cons c cs ih =>
    intro w
    rw [List.foldl_cons, ih, resolve_one_indexRenders]
    simp [Nat.add_assoc, Nat.add_comm 1 cs.length]

theorem resolve_fold_channels_ne_nil (p : String) : ∀ (cs : List Chat) (w : World),
    cs ≠ [] → (cs.foldl (resolve_one p) w).db.channels ≠ [] := by
  intro cs
  induction cs with
  | nil => intro w h; cases h rfl
  | cons c cs ih =>
    intro w _
    rw [List.foldl_cons]
    cases hcs : cs with
    | nil => exact resolve_one_channels_ne_nil p w c
    | cons d ds =>
      rw [← hcs]
      exact ih (resolve_one p w c) (by rw [hcs]; exact List.cons_ne_nil d ds)

/-- Counterexample to claim C3 as stated: resolving a single configured
channel from an empty world renders the global index twice (once inside
the per-channel loop, once after the loop), not exactly once. -/
theorem resolve_channels_index_renders_twice :
    (resolve_channels "downloads" wEx [chatEx]).indexRenders = 2 ∧
    wEx.indexRenders = 0 := ⟨rfl, rfl⟩

/-- Claim C3 (amended): during startup channel resolution over a non-empty
channel list, the global index page is rendered once per resolved channel
(inside the loop, right after the channel is registered) and exactly once
more after the whole loop — N + 1 times for N channels, the final render
occurring after all channels are resolved. -/
theorem resolve_channels_index_render_count (p : String) (w : World) (cs : List Chat)
    (h : cs ≠ []) :
    (resolve_channels p w cs).indexRenders = w.indexRenders + cs.length + 1 := by
  unfold resolve_channels
  simp only [get_all_channels]
  rw [if_pos (resolve_fold_channels_ne_nil p cs w h)]
  show (cs.foldl (resolve_one p) w).indexRenders + 1 = _
  rw [resolve_fold_idx]

/-- Witness for the amended C3 at a concrete input. -/
theorem resolve_channels_index_render_count_witness :
    ([chatEx] ≠ ([] : List Chat)) ∧
    (resolve_channels "downloads" wEx [chatEx]).indexRenders
      = wEx.indexRenders + [chatEx].length + 1 :=
  ⟨List.cons_ne_nil chatEx [],
    resolve_channels_index_render_count "downloads" wEx [chatEx] (List.cons_ne_nil chatEx [])⟩

/-! ### C9 : media allow-list classification -/

/-- Counterexample to claim C9 as stated: a voice note is document-backed,
so with an allow-list containing only the generic-file category
("document") — the more specific voice category being absent — the
decision function still fetches it under the generic-file category; a
video whose specific "video" category is absent from the allow-list is
likewise fetched under "document". -/
theorem voice_fetched_as_document :
    hasDocument MediaKind.voice = true ∧
    should_download ["document"] (some MediaKind.voice) = true ∧
    should_download ["document"] (some MediaKind.video) = true :=
  ⟨rfl, rfl, rfl⟩

/-- Claim C9 (amended): the fetch decision is a pure function of (media
kind, allow-list), but the generic-file category is an unconditional
catch-all over document-backed kinds: whenever "document" is in the
allow-list, every non-photo attachment (video, voice note, sticker,
generic file) is fetched, even when its more specific category is absent
from the allow-list. -/
theorem document_catchall (allowed : List String) (k : MediaKind)
    (h1 : allowed.contains "document" = true) (h2 : hasDocument k = true) :
    should_download allowed (some k) = true := by
  cases k with
  | photo => simp [hasDocument] at h2
  | video =>
    simp only [should_download, hasPhoto, hasVideo, hasDocument, h1, Bool.and_false,
      Bool.and_true, Bool.false_eq_true, if_false]
    split <;> rfl
  | voice =>
    simp only [should_download, hasPhoto, hasVideo, hasDocument, h1, Bool.and_false,
      Bool.and_true, Bool.false_eq_true, if_false, if_true]
  | sticker =>
    simp only [should_download, hasPhoto, hasVideo, hasDocument, h1, Bool.and_false,
      Bool.and_true, Bool.false_eq_true, if_false, if_true]
  | document =>
    simp only [should_download, hasPhoto, hasVideo, hasDocument, h1, Bool.and_false,
      Bool.and_true, Bool.false_eq_true, if_false, if_true]

/-- Witness for the amended C9 at a concrete input. -/
theorem document_catchall_witness :
    (["document"].contains "document" = true) ∧ (hasDocument MediaKind.sticker = true) ∧
    should_download ["document"] (some MediaKind.sticker) = true :=
  ⟨rfl, rfl, document_catchall ["document"] MediaKind.sticker rfl rfl⟩

/-! ### C8 : storage fault surfacing -/

/-- Counterexample to claim C8 as stated: under a transient storage fault
every StorageManager operation returns a perfectly normal value — a fresh
`save_message` that would have inserted (returning True) instead returns
False, the very value that signals a duplicate; `get_or_create_channel`
returns None, `get_messages` returns the empty list. No distinct
StorageUnavailable condition exists anywhere in the interface. -/
theorem storage_fault_swallowed_concrete :
    save_messageF true emptyDB 1 10 "d" none none none = (false, emptyDB) ∧
    (save_message emptyDB 1 10 "d" none none none).1 = true ∧
    get_or_create_channelF true emptyDB 5 "t" "u" "f" none = (none, emptyDB) ∧
    get_messagesF true emptyDB 1 100 0 = [] ∧
    get_messageF true emptyDB 1 10 = none :=
  ⟨rfl, rfl, rfl, rfl, rfl⟩

/-- Claim C8 (amended): every StorageManager operation catches storage
faults internally and maps them to a benign default return value (False /
None / empty list) instead of surfacing a distinct error condition; in
particular, a faulting `save_message` is indistinguishable from a
duplicate insert. -/
theorem storage_fault_returns_default (db : DB) (cid tid : Nat) (d : String)
    (t mp : Option String) (g : Option Nat) (tid2 : Nat) (ti u f : String)
    (a : Option String) (lim off : Nat)
    (hdup : (get_message db cid tid).isSome = true) :
    save_messageF true db cid tid d t mp g = (false, db) ∧
    save_messageF false db cid tid d t mp g = save_messageF true db cid tid d t mp g ∧
    get_or_create_channelF true db tid2 ti u f a = (none, db) ∧
    get_messagesF true db cid lim off = [] ∧
    get_messageF true db cid tid = none := by
  refine ⟨rfl, ?_, rfl, rfl, rfl⟩
  simp [save_messageF, save_message, hdup]

/-- Witness for the amended C8 at a concrete input. -/
theorem storage_fault_returns_default_witness :
    ((get_message wEx5.db 1 10).isSome = true) ∧
    (save_messageF true wEx5.db 1 10 "d" none none none = (false, wEx5.db) ∧
     save_messageF false wEx5.db 1 10 "d" none none none
       = save_messageF true wEx5.db 1 10 "d" none none none ∧
     get_or_create_channelF true wEx5.db 5 "t" "u" "f" none = (none, wEx5.db) ∧
     get_messagesF true wEx5.db 1 100 0 = [] ∧
     get_messageF true wEx5.db 1 10 = none) :=
  ⟨rfl, storage_fault_returns_default wEx5.db 1 10 "d" none none none 5 "t" "u" "f" none
    100 0 rfl⟩

/-! ### C10 : reset is not atomic -/

/-- Claim C10: `clear_all_data` commits the deletion of all message and
channel rows before touching the filesystem, so when the directory removal
fails it returns False over a database that has already been irrevocably
wiped — the state is not unchanged on error (and the on-disk files are
still there). -/
theorem clear_all_data_nonatomic (w : World) (h : w.db.messages ≠ []) :
    (clear_all_data false true w).1 = false ∧
    (clear_all_data false true w).2.db.messages = [] ∧
    (clear_all_data false true w).2.db.channels = [] ∧
    (clear_all_data false true w).2.db ≠ w.db ∧
    (clear_all_data false true w).2.fs = w.fs := by
  refine ⟨rfl, rfl, rfl, ?_, rfl⟩
  intro he
  exact h (by rw [← he]; rfl)

/-- Witness for C10 at a concrete input. -/
theorem clear_all_data_nonatomic_witness :
    (wEx5.db.messages ≠ []) ∧
    ((clear_all_data false true wEx5).1 = false ∧
     (clear_all_data false true wEx5).2.db.messages = [] ∧
     (clear_all_data false true wEx5).2.db.channels = [] ∧
     (clear_all_data false true wEx5).2.db ≠ wEx5.db ∧
     (clear_all_data false true wEx5).2.fs = wEx5.fs) :=
  ⟨by decide, clear_all_data_nonatomic wEx5 (by decide)⟩

/-! ### C6 : render message list -/

/-- Follows the spec's words, not the source: "the full ordered message
list (bounded at a fixed cap, e.g. 5000 **most recent**)" — keep only the
`limit` messages with the largest external ids, still in ascending
order. -/
def specRecentCap (db : DB) (cid limit : Nat) : List MessageRec :=
  ((db.messages.filter (fun m => m.channel_id == cid)).insertionSort msgLe).drop
    (((db.messages.filter (fun m => m.channel_id == cid)).insertionSort msgLe).length - limit)

/-- A minimal message record of channel 1 with external id `i`. -/
def mkMsg (i : Nat) : MessageRec := ⟨i + 1, 1, i, "", none, none, none⟩

/-- 5001 messages with external ids 0..5000. -/
def bigMsgs : List MessageRec := (List.range 5001).map mkMsg

/-- A channel holding 5001 messages with external ids 0..5000. -/
def bigDB : DB :=
  ⟨[⟨1, 7, "t", "u", "f", none⟩], bigMsgs, 2, 5002⟩

theorem bigDB_messages : bigDB.messages = bigMsgs := rfl

theorem bigMsgs_def : bigMsgs = (List.range 5001).map mkMsg := rfl

theorem bigDB_filter : ((List.range 5001).map mkMsg).filter (fun m => m.channel_id == 1)
    = (List.range 5001).map mkMsg :=
  List.filter_eq_self.mpr (by
    intro a ha
    obtain ⟨i, hi, rfl⟩ := List.mem_map.mp ha
    rfl)

theorem bigDB_sorted : ((List.range 5001).map mkMsg).Pairwise msgLe :=
  List.Pairwise.map mkMsg (fun _ _ h => h) (List.pairwise_le_range 5001)

theorem bigDB_sort : (((List.range 5001).map mkMsg).filter
      (fun m => m.channel_id == 1)).insertionSort msgLe
    = (List.range 5001).map mkMsg := by
  rw [bigDB_filter]
  exact List.Sorted.insertionSort_eq bigDB_sorted

/-- Counterexample to claim C6 as stated: on a channel holding 5001
messages (external ids 0..5000) the render query returns the 5000
**oldest** messages (ids 0..4999) — `ORDER BY telegram_id ASC LIMIT 5000`
truncates from the ascending end — not the 5000 most recent (ids
1..5000) that the spec asks for. -/
theorem render_cap_keeps_oldest :
    get_messages bigDB 1 RENDER_LIMIT 0 ≠ specRecentCap bigDB 1 RENDER_LIMIT := by
  have hlhs : get_messages bigDB 1 RENDER_LIMIT 0 = (List.range 5000).map mkMsg := by
    unfold get_messages RENDER_LIMIT
    rw [bigDB_messages, bigMsgs_def, bigDB_sort, List.drop_zero, ← List.map_take, List.take_range]
    have hmin : min 5000 5001 = 5000 := by norm_num
    rw [hmin]
  have hrhs : specRecentCap bigDB 1 RENDER_LIMIT
      = (List.range 5000).map (fun k => mkMsg (k + 1)) := by
    unfold specRecentCap RENDER_LIMIT
    rw [bigDB_messages, bigMsgs_def, bigDB_sort]
    have hlen : ((List.range 5001).map mkMsg).length = 5001 := by simp
    rw [hlen]
    have hsub : (5001 : Nat) - 5000 = 1 := by norm_num
    rw [hsub]
    have h5001 : (5001 : Nat) = 5000 + 1 := by norm_num
    rw [h5001, List.range_succ_eq_map]
    rw [List.map_cons, List.drop_one, List.tail_cons, List.map_map]
    rfl
  rw [hlhs, hrhs]
  intro heq
  have h0 : mkMsg 0 ∈ (List.range 5000).map mkMsg :=
    List.mem_map.mpr ⟨0, List.mem_range.mpr (by norm_num), rfl⟩
  rw [heq] at h0
  obtain ⟨k, hk, hkeq⟩ := List.mem_map.mp h0
  have : k + 1 = 0 := congrArg MessageRec.telegram_id hkeq
  cases this

/-- Claim C6 (amended): every channel render hands the renderer exactly one
new render-log entry whose message list is the channel's messages sorted
ascending by external message id, capped at the first 5000 **in ascending
order** (the oldest ids, not the most recent); whenever the channel holds
at most 5000 messages, that list is a permutation-complete ascending
ordering of the channel's full message set. -/
theorem render_list_sorted_capped (w : World) (dbId : Nat) :
    (renderChannel w dbId).renders
      = w.renders ++ [(dbId, get_messages w.db dbId RENDER_LIMIT 0)] ∧
    List.Sorted msgLe (get_messages w.db dbId RENDER_LIMIT 0) ∧
    (get_messages w.db dbId RENDER_LIMIT 0).length ≤ RENDER_LIMIT ∧
    ((w.db.messages.filter (fun m => m.channel_id == dbId)).length ≤ RENDER_LIMIT →
      (get_messages w.db dbId RENDER_LIMIT 0).Perm
        (w.db.messages.filter (fun m => m.channel_id == dbId))) := by
  refine ⟨rfl, ?_, ?_, ?_⟩
  · show List.Pairwise msgLe
      ((((w.db.messages.filter (fun m => m.channel_id == dbId)).insertionSort msgLe).drop
        0).take RENDER_LIMIT)
    rw [List.drop_zero]
    exact List.Pairwise.sublist (List.take_sublist _ _)
      (List.sorted_insertionSort msgLe _)
  · show ((((w.db.messages.filter (fun m => m.channel_id == dbId)).insertionSort
      msgLe).drop 0).take RENDER_LIMIT).length ≤ RENDER_LIMIT
    rw [List.length_take]
    exact Nat.min_le_left _ _
  · intro hle
    show ((((w.db.messages.filter (fun m => m.channel_id == dbId)).insertionSort
      msgLe).drop 0).take RENDER_LIMIT).Perm _
    rw [List.drop_zero]
    have hlen : ((w.db.messages.filter (fun m => m.channel_id == dbId)).insertionSort
        msgLe).length ≤ RENDER_LIMIT := by
      rw [List.length_insertionSort]
      exact hle
    rw [List.take_of_length_le hlen]
    exact List.perm_insertionSort msgLe _

/-- Witness for the amended C6 at a concrete input. -/
theorem render_list_sorted_capped_witness :
    (renderChannel wEx5 1).renders
      = wEx5.renders ++ [(1, get_messages wEx5.db 1 RENDER_LIMIT 0)] ∧
    List.Sorted msgLe (get_messages wEx5.db 1 RENDER_LIMIT 0) ∧
    (get_messages wEx5.db 1 RENDER_LIMIT 0).length ≤ RENDER_LIMIT ∧
    ((wEx5.db.messages.filter (fun m => m.channel_id == 1)).length ≤ RENDER_LIMIT →
      (get_messages wEx5.db 1 RENDER_LIMIT 0).Perm
        (wEx5.db.messages.filter (fun m => m.channel_id == 1))) :=
  render_list_sorted_capped wEx5 1

end LocalGram
